import Mathlib

/-
  Shallow embedding of the Tello drone connection orchestrator
  (React Native component in the repository: the version with the explicit
  `ConnectionStatus` state machine; `App.jsx` is the earlier draft of the
  same component that drives the UI from two booleans instead of a status
  enum).

  The component state (React `useState` / `useRef` cells) is modelled as a
  record `World`.  Side effects on the outside world (socket creation,
  bind, UDP sends, delays, FFmpeg session start/cancel, socket close) are
  recorded in an append-only action log, and the set of sockets that have
  been created and not yet closed is tracked explicitly so that resource
  claims ("at most one open channel") can be stated.  External collaborator
  results (NetInfo, permission prompt, bind/send callbacks, FFmpegKit
  launch) are inputs collected in an `Env` record: each handler is a pure
  function `Env → World → World`.
-/

namespace Tello

/-- The `ConnectionStatus` enum of the orchestrator. -/
inductive ConnectionStatus
  | DISCONNECTED
  | CONNECTING
  | CONNECTED
  | STREAMING
  | ERROR
  deriving DecidableEq

/-- `TELLO_IP` constant. -/
def TELLO_IP : String := "192.168.10.1"

/-- `TELLO_COMMAND_PORT` constant. -/
def TELLO_COMMAND_PORT : Nat := 8889

/-- `LOCAL_COMMAND_PORT_BIND` constant. -/
def LOCAL_COMMAND_PORT_BIND : Nat := 9000

/-- Observable side effects of the orchestrator, recorded in a log.
`awaitReply` is a waiting-for-device-acknowledgment step: the code never
performs one, which is how the "send succeeds without awaiting any
acknowledgment" part of the design is visible in traces. -/
inductive Action
  | createSocket (id : Nat)
  | bindSocket (id : Nat) (port : Nat)
  | send (id : Nat) (cmd : String) (port : Nat) (ip : String)
  | delay (ms : Nat)
  | awaitReply
  | closeSocket (id : Nat)
  | startSession (sid : Nat)
  | cancelSession (sid : Nat)
  deriving DecidableEq

/-- Mutable state of the component: `status` and `error` (useState),
`commandSocket` and `ffmpegSessionId` (useRef), plus bookkeeping for the
resource model: ids of sockets created and not yet closed, a fresh-id
counter, and the action log. -/
structure World where
  status : ConnectionStatus
  error : String
  commandSocket : Option Nat
  ffmpegSessionId : Option Nat
  openSockets : List Nat
  nextSocketId : Nat
  log : List Action
  deriving DecidableEq

/-- Initial component state: `DISCONNECTED`, no error, no handles. -/
def initialWorld : World :=
  { status := ConnectionStatus.DISCONNECTED
    error := ""
    commandSocket := none
    ffmpegSessionId := none
    openSockets := []
    nextSocketId := 0
    log := [] }

/-- Result of `NetInfo.fetch()`. -/
structure NetInfoState where
  isConnected : Bool
  type : String
  ssid : Option String
  deriving DecidableEq

/-- Responses of the external collaborators during one connect attempt:
platform, permission prompt result, network state, bind and per-command
send results (`none` = success, `some msg` = failure callback with that
message), and the FFmpegKit launch result with the session id it issues. -/
structure Env where
  platformAndroid : Bool
  permissionGranted : Bool
  netInfo : NetInfoState
  bindError : Option String
  sendError : String → Option String
  launchError : Option String
  launchSessionId : Nat

/-- `cleanup`: sets status to `DISCONNECTED`, clears the error, cancels the
FFmpeg session when one is recorded (nulling the ref), and closes the UDP
socket when one is recorded (nulling the ref). -/
def cleanup (w : World) : World :=
  let w1 : World := { w with status := ConnectionStatus.DISCONNECTED, error := "" }
  let w2 : World :=
    match w1.ffmpegSessionId with
    | some sid =>
        { w1 with ffmpegSessionId := none
                  log := w1.log ++ [Action.cancelSession sid] }
    | none => w1
  match w2.commandSocket with
  | some id =>
      { w2 with commandSocket := none
                openSockets := w2.openSockets.filter (fun s => s ≠ id)
                log := w2.log ++ [Action.closeSocket id] }
  | none => w2

/-- Terminal outcome of an FFmpeg session, as classified by the completion
callback via `ReturnCode.isSuccess` / `ReturnCode.isCancel`. -/
inductive FFmpegOutcome
  | success
  | cancelled
  | failed
  deriving DecidableEq

/-- The FFmpeg completion callback: on a failed return code it records the
error and sets status to `ERROR` (no cleanup is called there); in every
case it then clears `ffmpegSessionId` only when the stored id equals the id
of the session that completed. -/
def ffmpegSessionComplete (w : World) (sid : Nat) (rc : FFmpegOutcome) : World :=
  let w1 : World :=
    match rc with
    | FFmpegOutcome.success => w
    | FFmpegOutcome.cancelled => w
    | FFmpegOutcome.failed =>
        { w with error := "FFmpeg processing error. Check logs."
                 status := ConnectionStatus.ERROR }
  if w1.ffmpegSessionId = some sid then { w1 with ffmpegSessionId := none } else w1

/-- `startFFmpeg`: on successful launch, records the session id and emits
the start action (status is deliberately not advanced here — the code waits
for the onLoad signal of the video player); on launch failure, records the error,
sets `ERROR`, and runs `cleanup`. -/
def startFFmpeg (env : Env) (w : World) : World :=
  match env.launchError with
  | none =>
      { w with ffmpegSessionId := some env.launchSessionId
               log := w.log ++ [Action.startSession env.launchSessionId] }
  | some msg =>
      cleanup { w with error := "Failed to start FFmpeg: " ++ msg
                       status := ConnectionStatus.ERROR }

/-- `initializeDrone`: sets `CONNECTING`, creates the UDP socket, binds it
to the fixed local port, sends `"command"` then `"streamon"` to the drone
address with a 500 ms wait after each, sets `CONNECTED`, and starts FFmpeg.
Any bind or send failure is caught: the error is recorded, status is set to
`ERROR`, and `cleanup` runs. -/
def initializeDrone (env : Env) (w : World) : World :=
  let w0 : World := { w with status := ConnectionStatus.CONNECTING, error := "" }
  let id := w0.nextSocketId
  let w1 : World :=
    { w0 with commandSocket := some id
              openSockets := w0.openSockets ++ [id]
              nextSocketId := id + 1
              log := w0.log ++ [Action.createSocket id] }
  match env.bindError with
  | some msg =>
      cleanup { w1 with
        error := "Failed to initialize drone: Failed to bind socket to port "
                   ++ toString LOCAL_COMMAND_PORT_BIND ++ ": " ++ msg
        status := ConnectionStatus.ERROR }
  | none =>
    let w2 : World := { w1 with log := w1.log ++ [Action.bindSocket id LOCAL_COMMAND_PORT_BIND] }
    match env.sendError "command" with
    | some msg =>
        cleanup { w2 with error := "Failed to initialize drone: " ++ msg
                          status := ConnectionStatus.ERROR }
    | none =>
      let w3 : World :=
        { w2 with log := w2.log ++
            [Action.send id "command" TELLO_COMMAND_PORT TELLO_IP, Action.delay 500] }
      match env.sendError "streamon" with
      | some msg =>
          cleanup { w3 with error := "Failed to initialize drone: " ++ msg
                            status := ConnectionStatus.ERROR }
      | none =>
        let w4 : World :=
          { w3 with log := w3.log ++
              [Action.send id "streamon" TELLO_COMMAND_PORT TELLO_IP, Action.delay 500] }
        startFFmpeg env { w4 with status := ConnectionStatus.CONNECTED }

/-- `checkPermissions`: on Android, a denied location permission records an
error, sets `ERROR` and fails the attempt; elsewhere it always passes. -/
def checkPermissions (env : Env) (w : World) : World × Bool :=
  if env.platformAndroid then
    if env.permissionGranted then (w, true)
    else ({ w with error := "Location permission denied. Cannot scan for WiFi."
                   status := ConnectionStatus.ERROR }, false)
  else (w, true)

/-- `checkNetwork`: clears the previous error, then fails with `ERROR`
status when the link is down, when the link is not WiFi, or (on Android,
when an SSID is visible) when the SSID does not start with `TELLO-`. -/
def checkNetwork (env : Env) (w : World) : World × Bool :=
  let w0 : World := { w with error := "" }
  if env.netInfo.isConnected = false then
    ({ w0 with error := "No network connection."
               status := ConnectionStatus.ERROR }, false)
  else if env.netInfo.type ≠ "wifi" then
    ({ w0 with error := "Please connect to a WiFi network."
               status := ConnectionStatus.ERROR }, false)
  else if env.platformAndroid then
    match env.netInfo.ssid with
    | some ssid =>
        if ssid.startsWith "TELLO-" then (w0, true)
        else ({ w0 with
                 error := "Connected to \"" ++ ssid ++
                   "\". Please connect to the Tello drone\x27s WiFi network (starts with TELLO-)."
                 status := ConnectionStatus.ERROR }, false)
    | none => (w0, true)
  else (w0, true)

/-- `handleConnectPress`: ignored while `CONNECTING`, `CONNECTED` or
`STREAMING`; otherwise clears the error, sets `CONNECTING`, runs the
permission gate and the network preflight (each aborting the attempt on
failure), then `initializeDrone`. -/
def handleConnectPress (env : Env) (w : World) : World :=
  if w.status = ConnectionStatus.CONNECTING ∨
     w.status = ConnectionStatus.CONNECTED ∨
     w.status = ConnectionStatus.STREAMING then
    w
  else
    match checkPermissions env { w with error := "", status := ConnectionStatus.CONNECTING } with
    | (w1, false) => w1
    | (w1, true) =>
      match checkNetwork env w1 with
      | (w2, false) => w2
      | (w2, true) => initializeDrone env w2

/-- The socket `error` event handler: records the transport error, sets
`ERROR`, and runs `cleanup`. -/
def socketErrorHandler (w : World) (msg : String) : World :=
  cleanup { w with error := "UDP Socket error: " ++ msg
                   status := ConnectionStatus.ERROR }

/-- `onVideoLoad` (the playback `onReady` signal): whenever status is not
already `STREAMING`, sets it to `STREAMING` and clears the error. -/
def onVideoLoad (w : World) : World :=
  if w.status ≠ ConnectionStatus.STREAMING then
    { w with status := ConnectionStatus.STREAMING, error := "" }
  else w

/-- `onVideoError` (the playback error signal): records a playback error
message (with a fallback text when no detail is available) and sets status
back to `CONNECTED`; it touches no handle and emits no action. -/
def onVideoError (w : World) (detail : Option String) : World :=
  { w with
      error := "Video playback error: " ++
        (match detail with
         | some d => d
         | none => "Unknown video error")
      status := ConnectionStatus.CONNECTED }

/-- `handleDisconnectPress` (also the unmount effect): runs `cleanup`. -/
def handleDisconnectPress (w : World) : World := cleanup w

/-- The discrete events the orchestrator reacts to. -/
inductive Event
  | connectPress (env : Env)
  | disconnectPress
  | videoLoad
  | videoError (detail : Option String)
  | ffmpegDone (sid : Nat) (rc : FFmpegOutcome)
  | socketErr (msg : String)

/-- Event dispatch: each event runs the corresponding handler. -/
def step (e : Event) (w : World) : World :=
  match e with
  | Event.connectPress env => handleConnectPress env w
  | Event.disconnectPress => handleDisconnectPress w
  | Event.videoLoad => onVideoLoad w
  | Event.videoError d => onVideoError w d
  | Event.ffmpegDone sid rc => ffmpegSessionComplete w sid rc
  | Event.socketErr msg => socketErrorHandler w msg

/-- Running a sequence of events from a state. -/
def run (es : List Event) (w : World) : World :=
  es.foldl (fun w e => step e w) w

/-- An environment in which every collaborator succeeds: non-Android
platform, link up on WiFi, bind and both sends succeed, FFmpeg launches
with session id 1. -/
def okEnv : Env :=
  { platformAndroid := false
    permissionGranted := true
    netInfo := { isConnected := true, type := "wifi", ssid := none }
    bindError := none
    sendError := fun _ => none
    launchError := none
    launchSessionId := 1 }

/-- An environment identical to `okEnv` except that the socket bind fails. -/
def bindFailEnv : Env :=
  { okEnv with bindError := some "EADDRINUSE" }

/-- An environment identical to `okEnv` except that the link is down. -/
def linkDownEnv : Env :=
  { okEnv with netInfo := { isConnected := false, type := "none", ssid := none } }

/-- A state in which a connect attempt has fully succeeded: streaming, one
bound socket (id 0) and one live FFmpeg session (id 1). -/
def streamingWorld : World :=
  { status := ConnectionStatus.STREAMING
    error := ""
    commandSocket := some 0
    ffmpegSessionId := some 1
    openSockets := [0]
    nextSocketId := 1
    log := [] }

/-- A state whose status is `CONNECTED`, with live handles. -/
def connectedWorld : World :=
  { streamingWorld with status := ConnectionStatus.CONNECTED }

/-- A state whose status is `CONNECTING`, before any resource exists. -/
def connectingWorld : World :=
  { initialWorld with status := ConnectionStatus.CONNECTING }

/- Helper lemmas about the teardown and the FFmpeg completion callback. -/

theorem cleanup_status (w : World) :
    (cleanup w).status = ConnectionStatus.DISCONNECTED := by
  cases h1 : w.ffmpegSessionId <;> cases h2 : w.commandSocket <;>
    simp [cleanup, h1, h2]

theorem cleanup_error (w : World) : (cleanup w).error = "" := by
  cases h1 : w.ffmpegSessionId <;> cases h2 : w.commandSocket <;>
    simp [cleanup, h1, h2]

theorem cleanup_socket (w : World) : (cleanup w).commandSocket = none := by
  cases h1 : w.ffmpegSessionId <;> cases h2 : w.commandSocket <;>
    simp [cleanup, h1, h2]

theorem cleanup_session (w : World) : (cleanup w).ffmpegSessionId = none := by
  cases h1 : w.ffmpegSessionId <;> cases h2 : w.commandSocket <;>
    simp [cleanup, h1, h2]

theorem cleanup_of_clean (v : World) (h1 : v.ffmpegSessionId = none)
    (h2 : v.commandSocket = none) (h3 : v.status = ConnectionStatus.DISCONNECTED)
    (h4 : v.error = "") : cleanup v = v := by
  cases v
  simp_all [cleanup]

theorem ffmpegSessionComplete_status (w : World) (sid : Nat) (rc : FFmpegOutcome) :
    (ffmpegSessionComplete w sid rc).status =
      match rc with
      | FFmpegOutcome.failed => ConnectionStatus.ERROR
      | _ => w.status := by
  cases rc <;> (simp only [ffmpegSessionComplete]; split <;> rfl)

/-- C9: from any state, a disconnect request (or unmount) runs `cleanup`,
which sets status to `Disconnected`, clears the error message, cancels the
recorded pipeline session, closes the recorded Command Channel socket
(removing it from the open set), leaves both handles null, and is
idempotent: running it a second time changes nothing. -/
theorem c9_cleanup_teardown (w : World) :
    (cleanup w).status = ConnectionStatus.DISCONNECTED ∧
    (cleanup w).error = "" ∧
    (cleanup w).commandSocket = none ∧
    (cleanup w).ffmpegSessionId = none ∧
    (∀ sid, w.ffmpegSessionId = some sid →
        Action.cancelSession sid ∈ (cleanup w).log) ∧
    (∀ id, w.commandSocket = some id →
        Action.closeSocket id ∈ (cleanup w).log ∧ id ∉ (cleanup w).openSockets) ∧
    cleanup (cleanup w) = cleanup w := by
  refine ⟨cleanup_status w, cleanup_error w, cleanup_socket w, cleanup_session w,
    ?_, ?_, ?_⟩
  · intro sid hsid
    cases h2 : w.commandSocket <;> simp [cleanup, hsid, h2]
  · intro id hid
    cases h1 : w.ffmpegSessionId <;>
      simp [cleanup, h1, hid, List.mem_filter]
  · exact cleanup_of_clean (cleanup w) (cleanup_session w) (cleanup_socket w)
      (cleanup_status w) (cleanup_error w)

/-- Witness for C9 at a concrete fully-live state. -/
theorem c9_cleanup_teardown_witness :
    (cleanup streamingWorld).status = ConnectionStatus.DISCONNECTED ∧
    (cleanup streamingWorld).error = "" ∧
    (cleanup streamingWorld).commandSocket = none ∧
    (cleanup streamingWorld).ffmpegSessionId = none ∧
    Action.cancelSession 1 ∈ (cleanup streamingWorld).log ∧
    Action.closeSocket 0 ∈ (cleanup streamingWorld).log ∧
    (0 : Nat) ∉ (cleanup streamingWorld).openSockets ∧
    cleanup (cleanup streamingWorld) = cleanup streamingWorld := by
  obtain ⟨h1, h2, h3, h4, h5, h6, h7⟩ := c9_cleanup_teardown streamingWorld
  exact ⟨h1, h2, h3, h4, h5 1 rfl, (h6 0 rfl).1, (h6 0 rfl).2, h7⟩

/-- C10: the FFmpeg completion callback nulls the stored session identifier
exactly when it equals the identifier of the session that completed; a
terminal callback carrying any other (e.g. earlier) session identifier
leaves the stored identifier untouched. -/
theorem c10_callback_clears_only_matching_session
    (w : World) (sid : Nat) (rc : FFmpegOutcome) :
    (ffmpegSessionComplete w sid rc).ffmpegSessionId =
      if w.ffmpegSessionId = some sid then none else w.ffmpegSessionId := by
  cases rc <;> (simp only [ffmpegSessionComplete]; split <;> simp_all)

/-- C1: the claim says a connect attempt whose bind (or handshake send)
fails must end with status `Error` and the failure message still
inspectable.  The code first records both, but then runs `cleanup`, which
resets status to `DISCONNECTED` and clears the error message — so on a
concrete bind failure the final state is `DISCONNECTED` with an empty
message (only the channel-closing part of the claim holds). -/
theorem c1_bind_failure_error_state_clobbered :
    (step (Event.connectPress bindFailEnv) initialWorld).status =
      ConnectionStatus.DISCONNECTED ∧
    (step (Event.connectPress bindFailEnv) initialWorld).error = "" ∧
    Action.closeSocket 0 ∈ (step (Event.connectPress bindFailEnv) initialWorld).log := by
  decide

/-- C7: after a successful connect, a pipeline `Failed` outcome sets
`ERROR` without closing the socket, and a retried connect then creates a
second socket while the first is still open and is never closed: two
Command Channel sockets are open at once, refuting the at-most-one claim. -/
theorem c7_retry_after_pipeline_failure_leaks_socket :
    (run [Event.connectPress okEnv, Event.ffmpegDone 1 FFmpegOutcome.failed,
          Event.connectPress okEnv] initialWorld).openSockets = [0, 1] ∧
    (run [Event.connectPress okEnv, Event.ffmpegDone 1 FFmpegOutcome.failed,
          Event.connectPress okEnv] initialWorld).commandSocket = some 1 ∧
    Action.closeSocket 0 ∉
      (run [Event.connectPress okEnv, Event.ffmpegDone 1 FFmpegOutcome.failed,
            Event.connectPress okEnv] initialWorld).log := by
  decide

/-- C2 counterexample: a concrete run that connects, reaches `STREAMING`,
and then receives a `Failed` pipeline outcome: status becomes `ERROR` and
the session id is cleared, but the Command Channel is not closed — the
socket handle is still set and the socket is still open. -/
theorem c2_channel_not_closed_counterexample :
    (run [Event.connectPress okEnv, Event.videoLoad] initialWorld).status =
      ConnectionStatus.STREAMING ∧
    (run [Event.connectPress okEnv, Event.videoLoad,
          Event.ffmpegDone 1 FFmpegOutcome.failed] initialWorld).status =
      ConnectionStatus.ERROR ∧
    (run [Event.connectPress okEnv, Event.videoLoad,
          Event.ffmpegDone 1 FFmpegOutcome.failed] initialWorld).ffmpegSessionId = none ∧
    (run [Event.connectPress okEnv, Event.videoLoad,
          Event.ffmpegDone 1 FFmpegOutcome.failed] initialWorld).commandSocket = some 0 ∧
    (run [Event.connectPress okEnv, Event.videoLoad,
          Event.ffmpegDone 1 FFmpegOutcome.failed] initialWorld).openSockets = [0] := by
  decide

/-- C2 (amended): a `Failed` terminal outcome of the current session while
status is `Streaming` sets status to `Error`, records the pipeline error
message, and clears the session identifier, but leaves the Command Channel
untouched: the socket handle, the open-socket set and the action log are
unchanged (no close is issued by this event). -/
theorem c2_pipeline_failed_while_streaming (w : World) (sid : Nat)
    (_hs : w.status = ConnectionStatus.STREAMING)
    (hid : w.ffmpegSessionId = some sid) :
    (step (Event.ffmpegDone sid FFmpegOutcome.failed) w).status =
      ConnectionStatus.ERROR ∧
    (step (Event.ffmpegDone sid FFmpegOutcome.failed) w).error =
      "FFmpeg processing error. Check logs." ∧
    (step (Event.ffmpegDone sid FFmpegOutcome.failed) w).ffmpegSessionId = none ∧
    (step (Event.ffmpegDone sid FFmpegOutcome.failed) w).commandSocket =
      w.commandSocket ∧
    (step (Event.ffmpegDone sid FFmpegOutcome.failed) w).openSockets =
      w.openSockets ∧
    (step (Event.ffmpegDone sid FFmpegOutcome.failed) w).log = w.log := by
  simp [step, ffmpegSessionComplete, hid]

/-- Witness for C2 at a concrete streaming state. -/
theorem c2_pipeline_failed_while_streaming_witness :
    (step (Event.ffmpegDone 1 FFmpegOutcome.failed) streamingWorld).status =
      ConnectionStatus.ERROR ∧
    (step (Event.ffmpegDone 1 FFmpegOutcome.failed) streamingWorld).error =
      "FFmpeg processing error. Check logs." ∧
    (step (Event.ffmpegDone 1 FFmpegOutcome.failed) streamingWorld).ffmpegSessionId =
      none ∧
    (step (Event.ffmpegDone 1 FFmpegOutcome.failed) streamingWorld).commandSocket =
      streamingWorld.commandSocket ∧
    (step (Event.ffmpegDone 1 FFmpegOutcome.failed) streamingWorld).openSockets =
      streamingWorld.openSockets ∧
    (step (Event.ffmpegDone 1 FFmpegOutcome.failed) streamingWorld).log =
      streamingWorld.log :=
  c2_pipeline_failed_while_streaming streamingWorld 1 rfl rfl

/-- C4 counterexample: the playback onReady signal received while status is
`CONNECTING` is not ignored — it advances status to `STREAMING`. -/
theorem c4_videoLoad_while_connecting_counterexample :
    connectingWorld.status = ConnectionStatus.CONNECTING ∧
    (step Event.videoLoad connectingWorld).status = ConnectionStatus.STREAMING ∧
    (step Event.videoLoad connectingWorld).status ≠ connectingWorld.status := by
  decide

/-- C4 (amended): the playback onReady signal received while status is
`Connecting` or `Disconnected` is not ignored: the handler advances any
non-`Streaming` state, so status becomes `Streaming` and the error message
is cleared (all other state is unchanged). -/
theorem c4_videoLoad_advances_connecting_and_disconnected (w : World)
    (hs : w.status = ConnectionStatus.CONNECTING ∨
          w.status = ConnectionStatus.DISCONNECTED) :
    step Event.videoLoad w =
      { w with status := ConnectionStatus.STREAMING, error := "" } := by
  rcases hs with h | h <;> simp [step, onVideoLoad, h]

/-- Witness for C4 at a concrete connecting state. -/
theorem c4_videoLoad_advances_witness :
    step Event.videoLoad connectingWorld =
      { connectingWorld with status := ConnectionStatus.STREAMING, error := "" } :=
  c4_videoLoad_advances_connecting_and_disconnected connectingWorld (Or.inl rfl)

/-- C5: a playback error while status is `Streaming` demotes status to
`Connected` (not `Error`) and attaches a non-empty playback error message;
the socket handle, the session handle, the open-socket set and the action
log are all unchanged, so nothing is torn down and no close or cancel is
issued. -/
theorem c5_playback_error_demotes (w : World) (d : Option String)
    (_hs : w.status = ConnectionStatus.STREAMING) :
    (step (Event.videoError d) w).status = ConnectionStatus.CONNECTED ∧
    (step (Event.videoError d) w).error =
      "Video playback error: " ++
        (match d with | some s => s | none => "Unknown video error") ∧
    (step (Event.videoError d) w).error ≠ "" ∧
    (step (Event.videoError d) w).commandSocket = w.commandSocket ∧
    (step (Event.videoError d) w).ffmpegSessionId = w.ffmpegSessionId ∧
    (step (Event.videoError d) w).openSockets = w.openSockets ∧
    (step (Event.videoError d) w).log = w.log := by
  refine ⟨rfl, rfl, ?_, rfl, rfl, rfl, rfl⟩
  intro h
  have hd := congrArg String.data h
  simp [step, onVideoError, String.data_append] at hd

/-- Witness for C5 at a concrete streaming state. -/
theorem c5_playback_error_demotes_witness :
    (step (Event.videoError (some "decoder stalled")) streamingWorld).status =
      ConnectionStatus.CONNECTED ∧
    (step (Event.videoError (some "decoder stalled")) streamingWorld).error =
      "Video playback error: decoder stalled" ∧
    (step (Event.videoError (some "decoder stalled")) streamingWorld).error ≠ "" ∧
    (step (Event.videoError (some "decoder stalled")) streamingWorld).commandSocket =
      streamingWorld.commandSocket ∧
    (step (Event.videoError (some "decoder stalled")) streamingWorld).ffmpegSessionId =
      streamingWorld.ffmpegSessionId ∧
    (step (Event.videoError (some "decoder stalled")) streamingWorld).openSockets =
      streamingWorld.openSockets ∧
    (step (Event.videoError (some "decoder stalled")) streamingWorld).log =
      streamingWorld.log :=
  c5_playback_error_demotes streamingWorld (some "decoder stalled") rfl

/-- C8 counterexample: with the link down, a connect press from the initial
state does end at status `ERROR`, but the recorded message is
"No network connection." (with a trailing period), not the exact string
"No network connection" named by the claim. -/
theorem c8_link_down_message_counterexample :
    (step (Event.connectPress linkDownEnv) initialWorld).status =
      ConnectionStatus.ERROR ∧
    (step (Event.connectPress linkDownEnv) initialWorld).error =
      "No network connection." ∧
    (step (Event.connectPress linkDownEnv) initialWorld).error ≠
      "No network connection" := by
  decide

/-- C8 (amended): a connect request from a startable state (`Disconnected`
or `Error`) while the network link is down (and the permission gate
passes) ends with status `Error` and the message "No network connection."
(trailing period as in the source), and stops at the preflight check: no
socket is created, no action is emitted, and every handle is unchanged. -/
theorem c8_link_down_connect (env : Env) (w : World)
    (hs : w.status = ConnectionStatus.DISCONNECTED ∨
          w.status = ConnectionStatus.ERROR)
    (hp : (if env.platformAndroid then env.permissionGranted else true) = true)
    (hn : env.netInfo.isConnected = false) :
    (handleConnectPress env w).status = ConnectionStatus.ERROR ∧
    (handleConnectPress env w).error = "No network connection." ∧
    (handleConnectPress env w).log = w.log ∧
    (handleConnectPress env w).commandSocket = w.commandSocket ∧
    (handleConnectPress env w).openSockets = w.openSockets ∧
    (handleConnectPress env w).ffmpegSessionId = w.ffmpegSessionId := by
  have hguard : ¬ (w.status = ConnectionStatus.CONNECTING ∨
      w.status = ConnectionStatus.CONNECTED ∨
      w.status = ConnectionStatus.STREAMING) := by
    rcases hs with h | h <;> simp [h]
  cases hA : env.platformAndroid with
  | false =>
      simp [handleConnectPress, hguard, checkPermissions, checkNetwork, hA, hn]
  | true =>
      have hg : env.permissionGranted = true := by simpa [hA] using hp
      simp [handleConnectPress, hguard, checkPermissions, checkNetwork, hA, hg, hn]

/-- Witness for C8 at the initial state with the link down. -/
theorem c8_link_down_connect_witness :
    (handleConnectPress linkDownEnv initialWorld).status =
      ConnectionStatus.ERROR ∧
    (handleConnectPress linkDownEnv initialWorld).error =
      "No network connection." ∧
    (handleConnectPress linkDownEnv initialWorld).log = initialWorld.log ∧
    (handleConnectPress linkDownEnv initialWorld).commandSocket =
      initialWorld.commandSocket ∧
    (handleConnectPress linkDownEnv initialWorld).openSockets =
      initialWorld.openSockets ∧
    (handleConnectPress linkDownEnv initialWorld).ffmpegSessionId =
      initialWorld.ffmpegSessionId :=
  c8_link_down_connect linkDownEnv initialWorld (Or.inl rfl) rfl rfl

/-- C3: while status is `Connected`, an event advances status to
`Streaming` exactly when it is the playback onReady signal (`videoLoad`);
every other event — a connect press (ignored while connected), a
disconnect, a playback error, any pipeline terminal outcome, a socket
error — leaves the resulting status different from `Streaming`.  (A
successful pipeline launch sets no status at all in `startFFmpeg`, so the
launch path can only reach `Streaming` through this same signal.) -/
theorem c3_onReady_only_trigger (e : Event) (w : World)
    (hs : w.status = ConnectionStatus.CONNECTED) :
    (step e w).status = ConnectionStatus.STREAMING ↔ e = Event.videoLoad := by
  cases e with
  | connectPress env =>
      have hw : handleConnectPress env w = w := by
        simp [handleConnectPress, hs]
      simp [step, hw, hs]
  | disconnectPress =>
      simp [step, handleDisconnectPress, cleanup_status w]
  | videoLoad =>
      simp [step, onVideoLoad, hs]
  | videoError d =>
      simp [step, onVideoError]
  | ffmpegDone sid rc =>
      have hst := ffmpegSessionComplete_status w sid rc
      cases rc <;> simp_all [step]
  | socketErr msg =>
      simp [step, socketErrorHandler, cleanup_status]

/-- Witness for C3 at a concrete connected state: onReady advances to
`STREAMING`, while a non-onReady event (disconnect) does not. -/
theorem c3_onReady_only_trigger_witness :
    (step Event.videoLoad connectedWorld).status = ConnectionStatus.STREAMING ∧
    (step Event.disconnectPress connectedWorld).status ≠ ConnectionStatus.STREAMING := by
  constructor
  · exact (c3_onReady_only_trigger Event.videoLoad connectedWorld rfl).mpr rfl
  · intro h
    have he := (c3_onReady_only_trigger Event.disconnectPress connectedWorld rfl).mp h
    exact Event.noConfusion he

/-- C6: a successful connect attempt — bind, both sends and the pipeline
launch all succeed — emits exactly this action sequence: create the
socket, bind it to the fixed local port, send "command" to the fixed drone
address and command port, wait 500, send "streamon" likewise, wait 500,
start the pipeline session.  In particular the attempt sends exactly two
command datagrams, in fixed order, with a 500 time-unit settling delay
after each, and the attempt contains no acknowledgment wait. -/
theorem c6_handshake_trace (env : Env) (w : World)
    (hb : env.bindError = none)
    (h1 : env.sendError "command" = none)
    (h2 : env.sendError "streamon" = none)
    (hl : env.launchError = none) :
    (initializeDrone env w).log = w.log ++
      [Action.createSocket w.nextSocketId,
       Action.bindSocket w.nextSocketId LOCAL_COMMAND_PORT_BIND,
       Action.send w.nextSocketId "command" TELLO_COMMAND_PORT TELLO_IP,
       Action.delay 500,
       Action.send w.nextSocketId "streamon" TELLO_COMMAND_PORT TELLO_IP,
       Action.delay 500,
       Action.startSession env.launchSessionId] ∧
    Action.awaitReply ∉ (initializeDrone env w).log.drop w.log.length := by
  have hlog : (initializeDrone env w).log = w.log ++
      [Action.createSocket w.nextSocketId,
       Action.bindSocket w.nextSocketId LOCAL_COMMAND_PORT_BIND,
       Action.send w.nextSocketId "command" TELLO_COMMAND_PORT TELLO_IP,
       Action.delay 500,
       Action.send w.nextSocketId "streamon" TELLO_COMMAND_PORT TELLO_IP,
       Action.delay 500,
       Action.startSession env.launchSessionId] := by
    simp [initializeDrone, hb, h1, h2, hl, startFFmpeg]
  refine ⟨hlog, ?_⟩
  rw [hlog, List.drop_left]
  simp

/-- Witness for C6: the successful attempt from the initial state. -/
theorem c6_handshake_trace_witness :
    (initializeDrone okEnv initialWorld).log =
      [Action.createSocket 0,
       Action.bindSocket 0 LOCAL_COMMAND_PORT_BIND,
       Action.send 0 "command" TELLO_COMMAND_PORT TELLO_IP,
       Action.delay 500,
       Action.send 0 "streamon" TELLO_COMMAND_PORT TELLO_IP,
       Action.delay 500,
       Action.startSession 1] ∧
    Action.awaitReply ∉ (initializeDrone okEnv initialWorld).log := by
  have h := c6_handshake_trace okEnv initialWorld rfl rfl rfl rfl
  simpa [initialWorld, okEnv] using h

end Tello
